import Mathlib

/-!
Verification of the booking/payment workflow of the alx-travel-app backend.

The data model (Listing, Booking, Payment), the payment verification view
`verify_payment`, the booking lifecycle actions (`perform_create`, `cancel`,
`confirm`), the listing availability filter, and the asynchronous tasks
(`send_booking_confirmation_email`, `cleanup_old_bookings`) are embedded as
pure Lean functions over an explicit state.  Side effects that matter to the
specification — the gateway verify call and the enqueued email jobs — are
recorded as an explicit event trace.  Dates and timestamps are modelled as
integers (seconds); one day is 86400 seconds.
-/

namespace AlxTravel

/-- Booking status values used by the source (`pending`, `confirmed`,
`cancelled`, `active`). -/
inductive BookingStatus where
  | pending
  | confirmed
  | cancelled
  | active
  deriving DecidableEq

/-- A listing row: only the fields the verified operations read. -/
structure Listing where
  id : Nat
  hostId : Nat
  title : String
  /-- Either `active` or `inactive`; the query layer keeps active listings only. -/
  status : String
  deriving DecidableEq

/-- A booking row, mirroring the fields of the Booking model that the views
and tasks read or write.  `updated_at` is the last-updated timestamp read by
`cleanup_old_bookings`. -/
structure Booking where
  id : Nat
  listingId : Nat
  guestId : Nat
  guestEmail : String
  check_in : Int
  check_out : Int
  guests : Nat
  total_price : Int
  status : BookingStatus
  confirmation_number : String
  payment_status : String
  created_at : Int
  updated_at : Int
  confirmed_at : Option Int
  cancelled_at : Option Int
  paid_at : Option Int
  deriving DecidableEq

/-- A payment row.  `booking` is the optional id of the linked booking;
`chapa_verification_response` stores the raw gateway verification payload
(modelled by its status string). -/
structure Payment where
  id : Nat
  booking : Option Nat
  amount : Int
  email : String
  reference : String
  transaction_id : String
  status : String
  paid_at : Option Int
  chapa_verification_response : String
  deriving DecidableEq

/-- The persisted state: the three tables the verified operations touch. -/
structure State where
  listings : List Listing
  bookings : List Booking
  payments : List Payment
  deriving DecidableEq

/-- Observable side effects: the synchronous gateway verify call and the
asynchronous email jobs enqueued with `.delay(...)`.  Each email event
carries the `confirmation_number` found in the `booking_data` context and
the recipient address. -/
inductive Event where
  | gatewayVerify (reference : String)
  | confirmationEmailJob (confirmation_number : String) (recipient : String)
  | cancellationEmailJob (confirmation_number : String) (recipient : String)
  deriving DecidableEq

/-- Look up a booking by primary key. -/
def findBooking (bs : List Booking) (i : Nat) : Option Booking :=
  bs.find? (fun b => b.id == i)

/-- Effect of `booking.save()`: replace the row with the same id. -/
def saveBooking (bs : List Booking) (b : Booking) : List Booking :=
  bs.map (fun x => if x.id = b.id then b else x)

/-- Effect of `payment.save()`: replace the row with the same id. -/
def savePayment (ps : List Payment) (p : Payment) : List Payment :=
  ps.map (fun q => if q.id = p.id then p else q)

/-- Outcome of the `verify_payment` view. -/
inductive VerifyResult where
  | notFound
  | ok (payment_status : String)
  deriving DecidableEq

/-- The `verify_payment` view (views.py, second definition).  It first calls
`verify_chapa_transaction(reference)` (recorded as a `gatewayVerify` event;
the gateway's reported status is the input `gateway_status`), then looks up
the Payment by reference (404 if absent).  On gateway status `"success"` it
completes the payment and, if a booking is linked, confirms the booking and
enqueues a confirmation email to the guest; on any other status it fails the
payment and flips the linked booking's `payment_status` to `"failed"`. -/
def verify_payment (st : State) (gateway_status : String) (reference : String)
    (now : Int) : VerifyResult × State × List Event :=
  let evs := [Event.gatewayVerify reference]
  match st.payments.find? (fun q => q.reference == reference) with
  | none => (VerifyResult.notFound, st, evs)
  | some payment =>
    if gateway_status == "success" then
      let payment' := { payment with
        status := "completed"
        paid_at := some now
        chapa_verification_response := gateway_status }
      match payment.booking.bind (findBooking st.bookings) with
      | some b =>
        let b' := { b with
          status := BookingStatus.confirmed
          payment_status := "completed"
          paid_at := some now }
        (VerifyResult.ok "completed",
         { st with
            bookings := saveBooking st.bookings b'
            payments := savePayment st.payments payment' },
         evs ++ [Event.confirmationEmailJob b.confirmation_number b.guestEmail])
      | none =>
        (VerifyResult.ok "completed",
         { st with payments := savePayment st.payments payment' }, evs)
    else
      let payment' := { payment with
        status := "failed"
        chapa_verification_response := gateway_status }
      match payment.booking.bind (findBooking st.bookings) with
      | some b =>
        let b' := { b with payment_status := "failed" }
        (VerifyResult.ok "failed",
         { st with
            bookings := saveBooking st.bookings b'
            payments := savePayment st.payments payment' },
         evs)
      | none =>
        (VerifyResult.ok "failed",
         { st with payments := savePayment st.payments payment' }, evs)

/-- One nibble of a version-4 UUID rendered as a lowercase hex character,
as `str(uuid.uuid4())` does. -/
def hexChar (n : Fin 16) : Char :=
  if n.val < 10 then Char.ofNat (48 + n.val) else Char.ofNat (97 + (n.val - 10))

/-- The 36-character string form of a UUID: 32 hex digits with hyphens after
positions 8, 12, 16 and 20 (`str(uuid.uuid4())` for nibbles `ds`). -/
def uuid4_chars (ds : List (Fin 16)) : List Char :=
  (ds.map hexChar).take 8 ++
    ('-' :: ((ds.map hexChar).drop 8).take 4 ++
      ('-' :: ((ds.map hexChar).drop 12).take 4 ++
        ('-' :: ((ds.map hexChar).drop 16).take 4 ++
          ('-' :: (ds.map hexChar).drop 20))))

/-- The characters of `str(uuid.uuid4())[:8].upper()`. -/
def genConfirmationChars (ds : List (Fin 16)) : List Char :=
  ((uuid4_chars ds).take 8).map Char.toUpper

/-- The generated confirmation number, `str(uuid.uuid4())[:8].upper()`. -/
def genConfirmationNumber (ds : List (Fin 16)) : String :=
  String.mk (genConfirmationChars ds)

/-- Modelled from the spec: the Booking model's default status at creation.
models.py is not in the source tree; spec section 4.1 says a created booking
is persisted with status `pending`. -/
def default_booking_status : BookingStatus := BookingStatus.pending

/-- The validated booking data handed to `serializer.save` by
`BookingViewSet.perform_create`: the requested fields plus the primary key
the insert will assign.  `confirmation_number` is `""` when absent. -/
structure BookingRequest where
  id : Nat
  listingId : Nat
  check_in : Int
  check_out : Int
  guests : Nat
  total_price : Int
  confirmation_number : String
  deriving DecidableEq

/-- The `BookingViewSet.initialize_payment` helper: create a Payment row for the booking
with a fresh reference and status `"pending"` (the gateway call is commented
out in the source). -/
def initialize_payment (booking_id : Nat) (total_price : Int)
    (pay_reference : String) (next_payment_id : Nat) : Payment :=
  { id := next_payment_id
    booking := some booking_id
    amount := total_price
    email := ""
    reference := pay_reference
    transaction_id := ""
    status := "pending"
    paid_at := none
    chapa_verification_response := "" }

/-- Effect of `serializer.save(guest=self.request.user)` in
`BookingViewSet.perform_create`: the booking row persisted from the request,
with the guest bound to the requesting user and status from the model
default. -/
def serializer_save (req : BookingRequest) (userId : Nat) (userEmail : String)
    (now : Int) : Booking := {
  id := req.id
  listingId := req.listingId
  guestId := userId
  guestEmail := userEmail
  check_in := req.check_in
  check_out := req.check_out
  guests := req.guests
  total_price := req.total_price
  status := default_booking_status
  confirmation_number := req.confirmation_number
  payment_status := "pending"
  created_at := now
  updated_at := now
  confirmed_at := none
  cancelled_at := none
  paid_at := none }

/-- The confirmation-number assignment in `perform_create`: when none is
present, set it to `str(uuid.uuid4())[:8].upper()` and save. -/
def assign_confirmation_number (b : Booking) (uuid_digits : List (Fin 16)) :
    Booking :=
  if b.confirmation_number = "" then
    { b with confirmation_number := genConfirmationNumber uuid_digits }
  else b

/-- The `BookingViewSet.perform_create` hook: persist the booking (status from the
model default, guest bound to the requesting user), generate a confirmation
number when none is present, enqueue one confirmation-email job whose
context carries the confirmation number, and, when `total_price > 0`, create
a pending Payment row via `initialize_payment`.  `uuid_digits` are the
nibbles of the generated UUID, `now` the insertion time. -/
def perform_create (st : State) (req : BookingRequest) (userId : Nat)
    (userEmail : String) (uuid_digits : List (Fin 16)) (pay_reference : String)
    (now : Int) (next_payment_id : Nat) : State × List Event :=
  let booking := assign_confirmation_number
    (serializer_save req userId userEmail now) uuid_digits
  let st1 := { st with bookings := st.bookings ++ [booking] }
  let evs := [Event.confirmationEmailJob booking.confirmation_number userEmail]
  if req.total_price > 0 then
    ({ st1 with payments := st1.payments ++
        [initialize_payment booking.id req.total_price pay_reference next_payment_id] },
     evs)
  else (st1, evs)

/-- Modelled from the spec: the Booking model's `can_be_cancelled` predicate
(models.py is not in the source tree).  Spec section 4.1 describes it as a
business rule over the time before check-in and the current status, and
section 8 requires it to be false for an already-cancelled booking: the
booking must still be pending or confirmed and the current time before
check-in. -/
def can_be_cancelled (b : Booking) (now : Int) : Bool :=
  (b.status == BookingStatus.pending || b.status == BookingStatus.confirmed) &&
    now < b.check_in

/-- Outcome of the `cancel` and `confirm` booking actions. -/
inductive ActionResult where
  | notFound
  | forbidden
  | invalidState
  | ok
  deriving DecidableEq

/-- The `BookingViewSet.cancel` action: 403 unless the actor is the booking's guest or
staff; 400 unless `can_be_cancelled`; otherwise set status `cancelled` and
`cancelled_at`, save, and enqueue a cancellation email to the requesting
user's address. -/
def cancel (st : State) (booking_id : Nat) (actorId : Nat) (actorEmail : String)
    (actorIsStaff : Bool) (now : Int) : ActionResult × State × List Event :=
  match findBooking st.bookings booking_id with
  | none => (ActionResult.notFound, st, [])
  | some booking =>
    if booking.guestId != actorId && !actorIsStaff then
      (ActionResult.forbidden, st, [])
    else if !(can_be_cancelled booking now) then
      (ActionResult.invalidState, st, [])
    else
      let b' := { booking with
        status := BookingStatus.cancelled
        cancelled_at := some now }
      (ActionResult.ok, { st with bookings := saveBooking st.bookings b' },
       [Event.cancellationEmailJob booking.confirmation_number actorEmail])

/-- The `BookingViewSet.confirm` action: 403 unless the actor is staff or the host of
the booking's listing; otherwise — with no check of the booking's current
status — set status `confirmed` and `confirmed_at`, save, and enqueue a
confirmation email to the guest. -/
def confirm (st : State) (booking_id : Nat) (actorId : Nat)
    (actorIsStaff : Bool) (now : Int) : ActionResult × State × List Event :=
  match findBooking st.bookings booking_id with
  | none => (ActionResult.notFound, st, [])
  | some booking =>
    let hostOk := match st.listings.find? (fun l => l.id == booking.listingId) with
      | some l => l.hostId == actorId
      | none => false
    if !actorIsStaff && !hostOk then
      (ActionResult.forbidden, st, [])
    else
      let b' := { booking with
        status := BookingStatus.confirmed
        confirmed_at := some now }
      (ActionResult.ok, { st with bookings := saveBooking st.bookings b' },
       [Event.confirmationEmailJob booking.confirmation_number booking.guestEmail])

/-- The availability-overlap test on one booking: the filter body
`Q(check_in__lt=check_out) & Q(check_out__gt=check_in)` of the listing
queryset, for a requested window. -/
def overlapsWindow (check_in check_out : Int) (b : Booking) : Bool :=
  decide (b.check_in < check_out) && decide (b.check_out > check_in)

/-- The `values_list('listing_id')` query over the bookings with status confirmed or
active that overlap the requested window. -/
def unavailable_listing_ids (bookings : List Booking)
    (check_in check_out : Int) : List Nat :=
  (bookings.filter (fun b =>
      overlapsWindow check_in check_out b &&
      (b.status == BookingStatus.confirmed || b.status == BookingStatus.active))).map
    (fun b => b.listingId)

/-- The `ListingViewSet.get_queryset` method with both dates supplied (the `search`
action applies the same availability exclusion): active listings, excluding
those whose id occurs among the unavailable listing ids. -/
def listing_get_queryset (listings : List Listing) (bookings : List Booking)
    (check_in check_out : Int) : List Listing :=
  (listings.filter (fun l => l.status == "active")).filter
    (fun l => !((unavailable_listing_ids bookings check_in check_out).contains l.id))

/-- The `max_retries=3` argument of the `shared_task` decorator of
`send_booking_confirmation_email`. -/
def send_confirmation_max_retries : Nat := 3

/-- The `countdown=300` argument of the `self.retry` call of
`send_booking_confirmation_email`. -/
def send_confirmation_retry_countdown : Nat := 300

/-- Summary of one task's execution history: how many times its body ran,
the backoff delays slept between runs, and whether it ended in success. -/
structure TaskRun where
  attempts : Nat
  backoffs : List Nat
  succeeded : Bool
  deriving DecidableEq

/-- Celery retry semantics for a `bind=True` task: run the body; on failure,
if retries remain, sleep `countdown` seconds and run again, else mark the
task failed.  `attempt_ok k` tells whether the body's k-th run succeeds. -/
def run_with_retries (retries_left : Nat) (attempt_index : Nat)
    (attempt_ok : Nat → Bool) (countdown : Nat) : TaskRun :=
  if attempt_ok attempt_index then
    { attempts := attempt_index + 1, backoffs := [], succeeded := true }
  else
    match retries_left with
    | 0 => { attempts := attempt_index + 1, backoffs := [], succeeded := false }
    | n + 1 =>
      let r := run_with_retries n (attempt_index + 1) attempt_ok countdown
      { r with backoffs := countdown :: r.backoffs }

/-- The `send_booking_confirmation_email` task as a retrying task: `max_retries=3`
with a 300-second countdown between attempts. -/
def send_booking_confirmation_email_run (attempt_ok : Nat → Bool) : TaskRun :=
  run_with_retries send_confirmation_max_retries 0 attempt_ok
    send_confirmation_retry_countdown

/-- The `cleanup_old_bookings` task: delete the bookings with status `cancelled` whose
`updated_at` is strictly before `now` minus 30 days, and return the count
deleted (the task's return message reports this count) together with the
retained rows. -/
def cleanup_old_bookings (bookings : List Booking) (now : Int) :
    List Booking × Nat :=
  let cutoff_date := now - 30 * 86400
  let old_cancelled := bookings.filter (fun b =>
    b.status == BookingStatus.cancelled && decide (b.updated_at < cutoff_date))
  let count := old_cancelled.length
  let remaining := bookings.filter (fun b =>
    !(b.status == BookingStatus.cancelled && decide (b.updated_at < cutoff_date)))
  (remaining, count)

/-- The empty persisted state. -/
def emptyState : State := { listings := [], bookings := [], payments := [] }

/-- A sample listing row used to instantiate the theorems. -/
def sampleListing : Listing :=
  { id := 1, hostId := 3, title := "Luxury Beach Villa", status := "active" }

/-- A sample booking row used to instantiate the theorems. -/
def sampleBooking : Booking := {
  id := 1
  listingId := 1
  guestId := 7
  guestEmail := "guest@example.com"
  check_in := 864000
  check_out := 1728000
  guests := 2
  total_price := 750
  status := BookingStatus.pending
  confirmation_number := "ABCD1234"
  payment_status := "pending"
  created_at := 0
  updated_at := 0
  confirmed_at := none
  cancelled_at := none
  paid_at := none }

/-- A sample payment row linked to `sampleBooking`. -/
def samplePayment : Payment := {
  id := 1
  booking := some 1
  amount := 750
  email := "guest@example.com"
  reference := "ref-1"
  transaction_id := "tx-1"
  status := "pending"
  paid_at := none
  chapa_verification_response := "" }

/-- A sample persisted state holding the three rows above. -/
def sampleState : State :=
  { listings := [sampleListing], bookings := [sampleBooking],
    payments := [samplePayment] }

/-- The sample booking after a cancellation. -/
def cancelledBooking : Booking :=
  { sampleBooking with status := BookingStatus.cancelled }

/-- A state holding only the cancelled booking. -/
def cancelledState : State := { emptyState with bookings := [cancelledBooking] }

/-- The sample booking once confirmed. -/
def confirmedBooking : Booking :=
  { sampleBooking with status := BookingStatus.confirmed }

/-- A state with the active sample listing and a confirmed booking on it over
`[864000, 1728000)`. -/
def overlapState : State :=
  { listings := [sampleListing], bookings := [confirmedBooking], payments := [] }

/-- A booking request for the sample listing with no confirmation number. -/
def newBookingRequest : BookingRequest := {
  id := 2
  listingId := 1
  check_in := 1000000
  check_out := 2000000
  guests := 2
  total_price := 750
  confirmation_number := "" }

/-- 32 sample UUID nibbles. -/
def uuidSampleDigits : List (Fin 16) :=
  [0, 1, 2, 3, 4, 5, 6, 7, 8, 9, 10, 11, 12, 13, 14, 15,
   15, 14, 13, 12, 11, 10, 9, 8, 7, 6, 5, 4, 3, 2, 1, 0]

/-- A cancelled booking last updated 31 days before `day100`, where `day100`
is 100 days in seconds. -/
def oldCancelledBooking : Booking :=
  { cancelledBooking with id := 31, updated_at := 69 * 86400 }

/-- A cancelled booking last updated 29 days before `day100`. -/
def recentCancelledBooking : Booking :=
  { cancelledBooking with id := 29, updated_at := 71 * 86400 }

/-- C1: `verify_payment` with gateway status `"success"` on a payment linked
to a booking completes the payment with `paid_at = now`, confirms the
booking with `payment_status = "completed"` and `paid_at = now`, and
enqueues exactly one confirmation-email job to the guest. -/
theorem C1_verify_success_confirms_booking (st : State) (reference : String)
    (now : Int) (p : Payment) (bid : Nat) (b : Booking)
    (hp : st.payments.find? (fun q => q.reference == reference) = some p)
    (hb : p.booking = some bid)
    (hfind : findBooking st.bookings bid = some b) :
    verify_payment st "success" reference now =
      (VerifyResult.ok "completed",
       { st with
          bookings := saveBooking st.bookings { b with
            status := BookingStatus.confirmed
            payment_status := "completed"
            paid_at := some now }
          payments := savePayment st.payments { p with
            status := "completed"
            paid_at := some now
            chapa_verification_response := "success" } },
       [Event.gatewayVerify reference,
        Event.confirmationEmailJob b.confirmation_number b.guestEmail]) := by
  unfold verify_payment
  rw [hp]
  simp [hb, hfind]

/-- Witness for C1 at the sample state. -/
theorem C1_verify_success_confirms_booking_witness :
    (sampleState.payments.find? (fun q => q.reference == "ref-1") =
        some samplePayment) ∧
    samplePayment.booking = some 1 ∧
    findBooking sampleState.bookings 1 = some sampleBooking ∧
    verify_payment sampleState "success" "ref-1" 99 =
      (VerifyResult.ok "completed",
       { sampleState with
          bookings := saveBooking sampleState.bookings { sampleBooking with
            status := BookingStatus.confirmed
            payment_status := "completed"
            paid_at := some 99 }
          payments := savePayment sampleState.payments { samplePayment with
            status := "completed"
            paid_at := some 99
            chapa_verification_response := "success" } },
       [Event.gatewayVerify "ref-1",
        Event.confirmationEmailJob sampleBooking.confirmation_number
          sampleBooking.guestEmail]) :=
  ⟨rfl, rfl, rfl,
   C1_verify_success_confirms_booking sampleState "ref-1" 99 samplePayment 1
     sampleBooking rfl rfl rfl⟩

/-- C2: `verify_payment` with any gateway status other than `"success"` on a
payment linked to a booking sets the payment status to `"failed"` and the
booking's `payment_status` to `"failed"`, leaves every other field of the
booking (in particular its `status`) unchanged, and enqueues no email job. -/
theorem C2_verify_failure_frame (st : State) (gateway_status reference : String)
    (now : Int) (p : Payment) (bid : Nat) (b : Booking)
    (hgs : gateway_status ≠ "success")
    (hp : st.payments.find? (fun q => q.reference == reference) = some p)
    (hb : p.booking = some bid)
    (hfind : findBooking st.bookings bid = some b) :
    verify_payment st gateway_status reference now =
      (VerifyResult.ok "failed",
       { st with
          bookings := saveBooking st.bookings { b with payment_status := "failed" }
          payments := savePayment st.payments { p with
            status := "failed"
            chapa_verification_response := gateway_status } },
       [Event.gatewayVerify reference]) := by
  unfold verify_payment
  rw [hp]
  simp [hgs, hb, hfind]

/-- Witness for C2 at the sample state with gateway status `"failed"`. -/
theorem C2_verify_failure_frame_witness :
    (("failed" : String) ≠ "success") ∧
    (sampleState.payments.find? (fun q => q.reference == "ref-1") =
        some samplePayment) ∧
    samplePayment.booking = some 1 ∧
    findBooking sampleState.bookings 1 = some sampleBooking ∧
    verify_payment sampleState "failed" "ref-1" 99 =
      (VerifyResult.ok "failed",
       { sampleState with
          bookings := saveBooking sampleState.bookings { sampleBooking with
            payment_status := "failed" }
          payments := savePayment sampleState.payments { samplePayment with
            status := "failed"
            chapa_verification_response := "failed" } },
       [Event.gatewayVerify "ref-1"]) :=
  ⟨by decide, rfl, rfl, rfl,
   C2_verify_failure_frame sampleState "failed" "ref-1" 99 samplePayment 1
     sampleBooking (by decide) rfl rfl rfl⟩

/-- C9 counterexample: at a state with no Payment row, `verify_payment`
returns NotFound with the state unchanged, yet the gateway verify call has
already been issued — its event is in the trace — refuting the claim that
the gateway verify operation is not invoked. -/
theorem C9_gateway_called_before_lookup_counterexample :
    verify_payment emptyState "success" "ref-1" 0 =
      (VerifyResult.notFound, emptyState, [Event.gatewayVerify "ref-1"]) ∧
    Event.gatewayVerify "ref-1" ∈ (verify_payment emptyState "success" "ref-1" 0).2.2 := by
  constructor
  · rfl
  · decide

/-- C9 amended: when no Payment row matches the reference, `verify_payment`
fails with NotFound and changes no Payment or Booking state, but the gateway
verify operation has been invoked (once, before the lookup). -/
theorem C9_not_found_after_gateway_call (st : State)
    (gateway_status reference : String) (now : Int)
    (hnone : st.payments.find? (fun q => q.reference == reference) = none) :
    verify_payment st gateway_status reference now =
      (VerifyResult.notFound, st, [Event.gatewayVerify reference]) := by
  unfold verify_payment
  rw [hnone]

/-- Witness for the amended C9 at the empty state. -/
theorem C9_not_found_after_gateway_call_witness :
    (emptyState.payments.find? (fun q => q.reference == "ref-9") = none) ∧
    verify_payment emptyState "other" "ref-9" 5 =
      (VerifyResult.notFound, emptyState, [Event.gatewayVerify "ref-9"]) :=
  ⟨rfl, C9_not_found_after_gateway_call emptyState "other" "ref-9" 5 rfl⟩

/-- C6: cancelling an already-cancelled booking is rejected with the
invalid-state outcome, the state is unchanged, and no job is enqueued, for
every actor permitted to cancel (the guest or staff). -/
theorem C6_cancel_cancelled_rejected (st : State) (bid actorId : Nat)
    (actorEmail : String) (staff : Bool) (now : Int) (b : Booking)
    (hfind : findBooking st.bookings bid = some b)
    (hstatus : b.status = BookingStatus.cancelled)
    (hperm : b.guestId = actorId ∨ staff = true) :
    cancel st bid actorId actorEmail staff now =
      (ActionResult.invalidState, st, []) := by
  unfold cancel
  rw [hfind]
  have hguard : (b.guestId != actorId && !staff) = false := by
    rcases hperm with h | h <;> simp [h]
  have hcbc : can_be_cancelled b now = false := by
    unfold can_be_cancelled
    rw [hstatus]
    rfl
  simp [hguard, hcbc]

/-- Witness for C6: the guest cancels the already-cancelled sample booking. -/
theorem C6_cancel_cancelled_rejected_witness :
    (findBooking cancelledState.bookings 1 = some cancelledBooking) ∧
    cancelledBooking.status = BookingStatus.cancelled ∧
    (cancelledBooking.guestId = 7 ∨ false = true) ∧
    cancel cancelledState 1 7 "guest@example.com" false 5 =
      (ActionResult.invalidState, cancelledState, []) :=
  ⟨rfl, rfl, Or.inl rfl,
   C6_cancel_cancelled_rejected cancelledState 1 7 "guest@example.com" false 5
     cancelledBooking rfl rfl (Or.inl rfl)⟩

/-- C10: `confirm` checks no precondition on the booking's current status:
for every booking (of any status, a cancelled one included), a confirm by
staff or the listing's host sets the status to `confirmed` with
`confirmed_at = now` and enqueues one confirmation-email job to the guest. -/
theorem C10_confirm_resurrects_any_status (st : State) (bid actorId : Nat)
    (staff : Bool) (now : Int) (b : Booking)
    (hfind : findBooking st.bookings bid = some b)
    (hperm : staff = true ∨
      ∃ l, st.listings.find? (fun l => l.id == b.listingId) = some l ∧
        l.hostId = actorId) :
    confirm st bid actorId staff now =
      (ActionResult.ok,
       { st with bookings := saveBooking st.bookings { b with
          status := BookingStatus.confirmed
          confirmed_at := some now } },
       [Event.confirmationEmailJob b.confirmation_number b.guestEmail]) := by
  unfold confirm
  rw [hfind]
  rcases hperm with h | ⟨l, hl, hh⟩
  · simp [h]
  · simp [hl, hh]

/-- Witness for C10: the host confirms the cancelled sample booking, which
comes back as confirmed. -/
theorem C10_confirm_resurrects_any_status_witness :
    (findBooking
        (State.bookings { overlapState with bookings := [cancelledBooking] }) 1 =
      some cancelledBooking) ∧
    (false = true ∨
      ∃ l, (State.listings { overlapState with bookings := [cancelledBooking] }).find?
            (fun l => l.id == cancelledBooking.listingId) = some l ∧
        l.hostId = 3) ∧
    confirm { overlapState with bookings := [cancelledBooking] } 1 3 false 77 =
      (ActionResult.ok,
       { { overlapState with bookings := [cancelledBooking] } with
          bookings := saveBooking [cancelledBooking] { cancelledBooking with
            status := BookingStatus.confirmed
            confirmed_at := some 77 } },
       [Event.confirmationEmailJob cancelledBooking.confirmation_number
          cancelledBooking.guestEmail]) :=
  ⟨rfl, Or.inr ⟨sampleListing, rfl, rfl⟩,
   C10_confirm_resurrects_any_status
     { overlapState with bookings := [cancelledBooking] } 1 3 false 77
     cancelledBooking rfl (Or.inr ⟨sampleListing, rfl, rfl⟩)⟩

/-- A listing id is among the unavailable ids exactly when some confirmed or
active booking for that listing overlaps the requested window. -/
theorem mem_unavailable_listing_ids (bookings : List Booking)
    (check_in check_out : Int) (lid : Nat) :
    lid ∈ unavailable_listing_ids bookings check_in check_out ↔
      ∃ b ∈ bookings, b.listingId = lid ∧
        (b.status = BookingStatus.confirmed ∨ b.status = BookingStatus.active) ∧
        b.check_in < check_out ∧ b.check_out > check_in := by
  unfold unavailable_listing_ids overlapsWindow
  simp only [List.mem_map, List.mem_filter, Bool.and_eq_true, Bool.or_eq_true,
    decide_eq_true_eq, beq_iff_eq]
  constructor
  · rintro ⟨b, ⟨hbmem, ⟨hlt, hgt⟩, hstat⟩, hid⟩
    exact ⟨b, hbmem, hid, hstat, hlt, hgt⟩
  · rintro ⟨b, hbmem, hid, hstat, hlt, hgt⟩
    exact ⟨b, ⟨hbmem, ⟨hlt, hgt⟩, hstat⟩, hid⟩

/-- Membership in the availability-filtered listing queryset. -/
theorem mem_listing_get_queryset (listings : List Listing)
    (bookings : List Booking) (check_in check_out : Int) (L : Listing) :
    L ∈ listing_get_queryset listings bookings check_in check_out ↔
      L ∈ listings ∧ L.status = "active" ∧
        L.id ∉ unavailable_listing_ids bookings check_in check_out := by
  unfold listing_get_queryset
  simp only [List.mem_filter, Bool.not_eq_true', beq_iff_eq, and_assoc]
  constructor
  · rintro ⟨hmem, hact, hcont⟩
    refine ⟨hmem, hact, fun hin => ?_⟩
    rw [← List.elem_iff] at hin
    exact absurd hin (by simp [List.contains] at hcont; simp [hcont])
  · rintro ⟨hmem, hact, hnin⟩
    refine ⟨hmem, hact, ?_⟩
    by_contra hne
    have : (unavailable_listing_ids bookings check_in check_out).contains L.id = true := by
      revert hne
      cases (unavailable_listing_ids bookings check_in check_out).contains L.id <;> simp
    exact hnin (List.elem_iff.mp this)

/-- C5: an active listing is excluded from the availability-filtered listing
queryset exactly when some booking for it with status confirmed or active
satisfies the half-open overlap test against the requested window. -/
theorem C5_availability_overlap_exclusion (listings : List Listing)
    (bookings : List Booking) (check_in check_out : Int) (L : Listing)
    (hL : L ∈ listings) (hact : L.status = "active") :
    L ∉ listing_get_queryset listings bookings check_in check_out ↔
      ∃ b ∈ bookings, b.listingId = L.id ∧
        (b.status = BookingStatus.confirmed ∨ b.status = BookingStatus.active) ∧
        b.check_in < check_out ∧ b.check_out > check_in := by
  rw [← mem_unavailable_listing_ids bookings check_in check_out L.id]
  rw [mem_listing_get_queryset]
  simp [hL, hact]

/-- Witness for C5: the active sample listing with an overlapping confirmed
booking. -/
theorem C5_availability_overlap_exclusion_witness :
    sampleListing ∈ overlapState.listings ∧
    sampleListing.status = "active" ∧
    (sampleListing ∉ listing_get_queryset overlapState.listings
        overlapState.bookings 1000000 2000000 ↔
      ∃ b ∈ overlapState.bookings, b.listingId = sampleListing.id ∧
        (b.status = BookingStatus.confirmed ∨ b.status = BookingStatus.active) ∧
        b.check_in < 2000000 ∧ b.check_out > 1000000) :=
  ⟨by decide, rfl,
   C5_availability_overlap_exclusion overlapState.listings overlapState.bookings
     1000000 2000000 sampleListing (by decide) rfl⟩

/-- With a full 32-nibble UUID, the first eight characters of its string form
are its first eight hex digits. -/
theorem genConfirmationChars_eq_take (ds : List (Fin 16)) (hds : ds.length = 32) :
    genConfirmationChars ds = ((ds.map hexChar).take 8).map Char.toUpper := by
  have h8 : ((ds.map hexChar).take 8).length = 8 := by
    rw [List.length_take, List.length_map, hds]
    decide
  unfold genConfirmationChars uuid4_chars
  rw [List.take_left' h8]

/-- Every uppercased hex digit is an uppercase alphanumeric character. -/
theorem hexChar_toUpper_upperAlnum :
    ∀ d : Fin 16, ((hexChar d).toUpper.isDigit || (hexChar d).toUpper.isUpper) = true := by
  decide

/-- A generated confirmation number has eight characters, each an uppercase
alphanumeric character. -/
theorem genConfirmationNumber_shape (ds : List (Fin 16)) (hds : ds.length = 32) :
    (genConfirmationNumber ds).length = 8 ∧
    ∀ c ∈ (genConfirmationNumber ds).data, (c.isDigit || c.isUpper) = true := by
  constructor
  · show (genConfirmationChars ds).length = 8
    rw [genConfirmationChars_eq_take ds hds, List.length_map, List.length_take,
      List.length_map, hds]
    decide
  · intro c hc
    have hc' : c ∈ genConfirmationChars ds := hc
    rw [genConfirmationChars_eq_take ds hds] at hc'
    rcases List.mem_map.mp hc' with ⟨x, hx, hcx⟩
    rcases List.mem_map.mp (List.mem_of_mem_take hx) with ⟨d, _, hdx⟩
    rw [← hcx, ← hdx]
    exact hexChar_toUpper_upperAlnum d

/-- The confirmation-number assignment leaves every other booking field
unchanged. -/
theorem assign_confirmation_number_id (b : Booking) (ds : List (Fin 16)) :
    (assign_confirmation_number b ds).id = b.id ∧
    (assign_confirmation_number b ds).listingId = b.listingId ∧
    (assign_confirmation_number b ds).status = b.status := by
  unfold assign_confirmation_number
  split <;> exact ⟨rfl, rfl, rfl⟩

/-- When the booking has no confirmation number, the assignment sets the
generated one. -/
theorem assign_confirmation_number_of_blank (b : Booking) (ds : List (Fin 16))
    (h : b.confirmation_number = "") :
    assign_confirmation_number b ds =
      { b with confirmation_number := genConfirmationNumber ds } := by
  unfold assign_confirmation_number
  rw [if_pos h]

/-- The `perform_create` hook appends exactly the created booking to the table. -/
theorem perform_create_bookings (st : State) (req : BookingRequest)
    (userId : Nat) (userEmail : String) (uuid_digits : List (Fin 16))
    (pay_reference : String) (now : Int) (next_payment_id : Nat) :
    (perform_create st req userId userEmail uuid_digits pay_reference now
        next_payment_id).1.bookings =
      st.bookings ++
        [assign_confirmation_number (serializer_save req userId userEmail now)
          uuid_digits] := by
  unfold perform_create
  by_cases h : req.total_price > 0 <;> simp [h]

/-- The `perform_create` hook enqueues exactly one confirmation-email job, carrying
the created booking's confirmation number. -/
theorem perform_create_events (st : State) (req : BookingRequest)
    (userId : Nat) (userEmail : String) (uuid_digits : List (Fin 16))
    (pay_reference : String) (now : Int) (next_payment_id : Nat) :
    (perform_create st req userId userEmail uuid_digits pay_reference now
        next_payment_id).2 =
      [Event.confirmationEmailJob
        (assign_confirmation_number (serializer_save req userId userEmail now)
          uuid_digits).confirmation_number userEmail] := by
  unfold perform_create
  by_cases h : req.total_price > 0 <;> simp [h]

/-- With a positive total price, `perform_create` appends exactly the
pending payment row created by `initialize_payment`. -/
theorem perform_create_payments_pos (st : State) (req : BookingRequest)
    (userId : Nat) (userEmail : String) (uuid_digits : List (Fin 16))
    (pay_reference : String) (now : Int) (next_payment_id : Nat)
    (h : req.total_price > 0) :
    (perform_create st req userId userEmail uuid_digits pay_reference now
        next_payment_id).1.payments =
      st.payments ++
        [initialize_payment
          (assign_confirmation_number (serializer_save req userId userEmail now)
            uuid_digits).id req.total_price pay_reference next_payment_id] := by
  unfold perform_create
  simp [h]

/-- With a non-positive total price, `perform_create` creates no payment. -/
theorem perform_create_payments_nonpos (st : State) (req : BookingRequest)
    (userId : Nat) (userEmail : String) (uuid_digits : List (Fin 16))
    (pay_reference : String) (now : Int) (next_payment_id : Nat)
    (h : ¬req.total_price > 0) :
    (perform_create st req userId userEmail uuid_digits pay_reference now
        next_payment_id).1.payments = st.payments := by
  unfold perform_create
  simp [h]

/-- C3: creating a booking persists it with status pending, assigns a
confirmation number of eight uppercase alphanumeric characters when none is
present, enqueues one confirmation-email job carrying that number, and
creates a pending Payment row linked to the booking iff `total_price > 0`. -/
theorem C3_create_booking_effects (st : State) (req : BookingRequest)
    (userId : Nat) (userEmail : String) (uuid_digits : List (Fin 16))
    (pay_reference : String) (now : Int) (next_payment_id : Nat)
    (hcn : req.confirmation_number = "") (hds : uuid_digits.length = 32) :
    ∃ bk : Booking,
      (perform_create st req userId userEmail uuid_digits pay_reference now
          next_payment_id).1.bookings = st.bookings ++ [bk] ∧
      bk.id = req.id ∧
      bk.status = BookingStatus.pending ∧
      bk.confirmation_number.length = 8 ∧
      (∀ c ∈ bk.confirmation_number.data, (c.isDigit || c.isUpper) = true) ∧
      (perform_create st req userId userEmail uuid_digits pay_reference now
          next_payment_id).2 =
        [Event.confirmationEmailJob bk.confirmation_number userEmail] ∧
      (req.total_price > 0 →
        ∃ pay : Payment,
          (perform_create st req userId userEmail uuid_digits pay_reference now
              next_payment_id).1.payments = st.payments ++ [pay] ∧
          pay.status = "pending" ∧ pay.booking = some req.id) ∧
      (¬req.total_price > 0 →
        (perform_create st req userId userEmail uuid_digits pay_reference now
            next_payment_id).1.payments = st.payments) := by
  obtain ⟨hlen, hchars⟩ := genConfirmationNumber_shape uuid_digits hds
  have hblank : (serializer_save req userId userEmail now).confirmation_number = "" :=
    hcn
  have hassign := assign_confirmation_number_of_blank
    (serializer_save req userId userEmail now) uuid_digits hblank
  refine ⟨assign_confirmation_number (serializer_save req userId userEmail now)
      uuid_digits,
    perform_create_bookings st req userId userEmail uuid_digits pay_reference
      now next_payment_id,
    by rw [hassign]; rfl, by rw [hassign]; rfl, by rw [hassign]; exact hlen,
    by rw [hassign]; exact hchars,
    perform_create_events st req userId userEmail uuid_digits pay_reference
      now next_payment_id,
    fun h => ⟨initialize_payment
        (assign_confirmation_number (serializer_save req userId userEmail now)
          uuid_digits).id req.total_price pay_reference next_payment_id,
      perform_create_payments_pos st req userId userEmail uuid_digits
        pay_reference now next_payment_id h,
      rfl, by rw [hassign]; rfl⟩,
    fun hn => perform_create_payments_nonpos st req userId userEmail uuid_digits
      pay_reference now next_payment_id hn⟩

/-- Witness for C3: a priced booking request with no confirmation number. -/
theorem C3_create_booking_effects_witness :
    newBookingRequest.confirmation_number = "" ∧
    uuidSampleDigits.length = 32 ∧
    (∃ bk : Booking,
      (perform_create sampleState newBookingRequest 7 "guest@example.com"
          uuidSampleDigits "ref-3" 0 5).1.bookings =
        sampleState.bookings ++ [bk] ∧
      bk.id = newBookingRequest.id ∧
      bk.status = BookingStatus.pending ∧
      bk.confirmation_number.length = 8 ∧
      (∀ c ∈ bk.confirmation_number.data, (c.isDigit || c.isUpper) = true) ∧
      (perform_create sampleState newBookingRequest 7 "guest@example.com"
          uuidSampleDigits "ref-3" 0 5).2 =
        [Event.confirmationEmailJob bk.confirmation_number "guest@example.com"] ∧
      (newBookingRequest.total_price > 0 →
        ∃ pay : Payment,
          (perform_create sampleState newBookingRequest 7 "guest@example.com"
              uuidSampleDigits "ref-3" 0 5).1.payments =
            sampleState.payments ++ [pay] ∧
          pay.status = "pending" ∧ pay.booking = some newBookingRequest.id) ∧
      (¬newBookingRequest.total_price > 0 →
        (perform_create sampleState newBookingRequest 7 "guest@example.com"
            uuidSampleDigits "ref-3" 0 5).1.payments = sampleState.payments)) :=
  ⟨rfl, rfl,
   C3_create_booking_effects sampleState newBookingRequest 7 "guest@example.com"
     uuidSampleDigits "ref-3" 0 5 rfl rfl⟩

/-- C4 counterexample: at a state holding a confirmed booking whose interval
overlaps the requested window on the same listing, creating the booking does
not fail — the new Booking row is persisted anyway. -/
theorem C4_overlap_not_rejected_counterexample :
    (confirmedBooking ∈ overlapState.bookings ∧
     confirmedBooking.listingId = newBookingRequest.listingId ∧
     confirmedBooking.status = BookingStatus.confirmed ∧
     confirmedBooking.check_in < newBookingRequest.check_out ∧
     confirmedBooking.check_out > newBookingRequest.check_in) ∧
    ∃ bk ∈ (perform_create overlapState newBookingRequest 7 "guest@example.com"
        uuidSampleDigits "ref-4" 0 5).1.bookings, bk.id = newBookingRequest.id := by
  decide

/-- C4 amended: booking creation performs no overlap check — for every state
(whatever confirmed or active bookings it holds) the requested Booking row
is persisted with the default status, and no conflict outcome exists. -/
theorem C4_amended_create_never_conflicts (st : State) (req : BookingRequest)
    (userId : Nat) (userEmail : String) (uuid_digits : List (Fin 16))
    (pay_reference : String) (now : Int) (next_payment_id : Nat) :
    ∃ bk : Booking,
      (perform_create st req userId userEmail uuid_digits pay_reference now
          next_payment_id).1.bookings = st.bookings ++ [bk] ∧
      bk.id = req.id ∧ bk.listingId = req.listingId ∧
      bk.status = default_booking_status := by
  obtain ⟨hid, hlid, hstat⟩ := assign_confirmation_number_id
    (serializer_save req userId userEmail now) uuid_digits
  exact ⟨assign_confirmation_number (serializer_save req userId userEmail now)
      uuid_digits,
    perform_create_bookings st req userId userEmail uuid_digits pay_reference
      now next_payment_id,
    hid, hlid, hstat⟩

/-- C7: when every attempt of the confirmation-email task fails, the task
runs its body four times — the initial attempt plus exactly three retries,
no fourth retry — sleeping 300 seconds before each retry, and ends marked
failed. -/
theorem C7_confirmation_email_retry_policy (attempt_ok : Nat → Bool)
    (hfail : ∀ n, attempt_ok n = false) :
    send_booking_confirmation_email_run attempt_ok =
      { attempts := 4, backoffs := [300, 300, 300], succeeded := false } := by
  unfold send_booking_confirmation_email_run send_confirmation_max_retries
    send_confirmation_retry_countdown
  simp [run_with_retries, hfail]

/-- Witness for C7: the always-failing attempt function. -/
theorem C7_confirmation_email_retry_policy_witness :
    (∀ n, (fun _ : Nat => false) n = false) ∧
    send_booking_confirmation_email_run (fun _ => false) =
      { attempts := 4, backoffs := [300, 300, 300], succeeded := false } :=
  ⟨fun _ => rfl, C7_confirmation_email_retry_policy (fun _ => false) fun _ => rfl⟩

/-- Splitting a list by a Boolean predicate preserves its length. -/
theorem length_filter_partition {α : Type} (p : α → Bool) (l : List α) :
    (l.filter p).length + (l.filter (fun a => !(p a))).length = l.length := by
  induction l with
  | nil => rfl
  | cons a t ih =>
    cases h : p a <;> simp [List.filter_cons, h] <;> omega

/-- C8: cleanup retains a stored booking exactly when it is not a cancelled
booking last updated strictly more than 30 days before now, and the returned
count equals the number of deleted bookings (count plus retained rows equals
the original total). -/
theorem C8_cleanup_deletes_old_cancelled (bookings : List Booking) (now : Int)
    (b : Booking) (hb : b ∈ bookings) :
    (b ∈ (cleanup_old_bookings bookings now).1 ↔
      ¬(b.status = BookingStatus.cancelled ∧
        b.updated_at < now - 30 * 86400)) ∧
    (cleanup_old_bookings bookings now).2 +
      (cleanup_old_bookings bookings now).1.length = bookings.length := by
  constructor
  · unfold cleanup_old_bookings
    simp [List.mem_filter, hb, not_and]
    tauto
  · exact length_filter_partition _ bookings

/-- Witness for C8: with now at day 100, the cancelled booking updated 31
days earlier is among the deleted ones. -/
theorem C8_cleanup_deletes_old_cancelled_witness :
    oldCancelledBooking ∈ [oldCancelledBooking, recentCancelledBooking] ∧
    ((oldCancelledBooking ∈
        (cleanup_old_bookings [oldCancelledBooking, recentCancelledBooking]
          (100 * 86400)).1 ↔
      ¬(oldCancelledBooking.status = BookingStatus.cancelled ∧
        oldCancelledBooking.updated_at < 100 * 86400 - 30 * 86400)) ∧
    (cleanup_old_bookings [oldCancelledBooking, recentCancelledBooking]
        (100 * 86400)).2 +
      (cleanup_old_bookings [oldCancelledBooking, recentCancelledBooking]
        (100 * 86400)).1.length =
      ([oldCancelledBooking, recentCancelledBooking] : List Booking).length) :=
  ⟨by decide,
   C8_cleanup_deletes_old_cancelled [oldCancelledBooking, recentCancelledBooking]
     (100 * 86400) oldCancelledBooking (by decide)⟩

end AlxTravel
